import Mathlib

/-!
Verification of the PR-notification service: a shallow embedding of the
email parser (`app/services/pr_perser_service.py`), the notification store
operations (`app/services/pr_notification_service.py`,
`app/services/pr_management_service.py`), the dispatch services
(`app/services/slack_notification_service.py`,
`app/services/auto_slack_service.py`) and the retention sweep
(`app/services/background_tasks_service.py`).

Python strings are modelled as Lean `String` (a wrapper around `List Char`);
the inputs exercised here are ASCII, where Python's `str.lower`, `\s`, `\d`
and friends agree with the ASCII-level functions used below.  Python regex
searches are translated pattern by pattern into explicit scanners over
`List Char` that reproduce the leftmost-match and greediness behaviour of
each concrete pattern.  `None`-able Python values become `Option`; the
database session becomes an explicit record-list state; external
collaborators (the Slack HTTP API, the date parser, the HTML-to-text
renderer of BeautifulSoup) are modelled as explicit parameters.
-/

/-- ASCII whitespace, Python's regex class `\s` and `str.strip` characters. -/
def pySpace (c : Char) : Bool :=
  c = ' ' || c = '\t' || c = '\n' || c = '\r' || c = '\x0b' || c = '\x0c'

/-- ASCII decimal digit, Python's `\d` on the ASCII inputs considered here. -/
def pyDigit (c : Char) : Bool :=
  '0' ≤ c && c ≤ '9'

/-- ASCII letter, the regex class `[a-zA-Z]`. -/
def pyAlpha (c : Char) : Bool :=
  ('a' ≤ c && c ≤ 'z') || ('A' ≤ c && c ≤ 'Z')

/-- ASCII lower-casing of one character (Python's `str.lower` on ASCII). -/
def charLower (c : Char) : Char :=
  if 'A' ≤ c && c ≤ 'Z' then Char.ofNat (c.toNat + 32) else c

/-- ASCII lower-casing of a character list. -/
def lowerChars (l : List Char) : List Char :=
  l.map charLower

/-- Does `hay` start with `needle`?  (Python's `str.startswith`.) -/
def leadMatch : List Char → List Char → Bool
  | [], _ => true
  | _ :: _, [] => false
  | a :: as, b :: bs => a = b && leadMatch as bs

/-- Does `needle` occur contiguously inside `hay`?  (Python's `in`.) -/
def containsSeq (needle : List Char) : List Char → Bool
  | [] => needle.isEmpty
  | c :: tl => leadMatch needle (c :: tl) || containsSeq needle tl

/-- Substring test on strings, Python's `needle in hay`. -/
def strContainsSub (hay needle : String) : Bool :=
  containsSeq needle.toList hay.toList

/-- The inbound Postmark webhook payload (`app/schemas/email.py`,
`PostmarkInboundWebhook`), restricted to the fields the parser and the
store read. -/
structure PostmarkInboundWebhook where
  From : String
  To : String
  OriginalRecipient : String
  Subject : String
  MessageID : String
  Date : String
  TextBody : Option String
  HtmlBody : Option String
deriving Repr, DecidableEq

/-- The parser's result record (`app/schemas/email.py`, `PRExtractionResult`). -/
structure PRExtractionResult where
  repo_name : Option String := none
  pr_title : String
  pr_link : Option String := none
  pr_number : Option String := none
  pr_status : Option String := none
  is_forwarded : Bool := false
  original_sender : Option String := none
deriving Repr, DecidableEq

/-- The seven literal forwarded-message indicator substrings of
`PRParserService._is_forwarded_email`. -/
def forwardedIndicators : List String :=
  ["---------- Forwarded message ---------",
   "Begin forwarded message:",
   "Forwarded message",
   "From:", "Date:", "Subject:", "To:"]

/-- How many of the seven indicators occur (case-insensitively) in `body`. -/
def forwardedIndicatorCount (body : String) : Nat :=
  let textLower := lowerChars body.toList
  forwardedIndicators.countP
    (fun ind => containsSeq (lowerChars ind.toList) textLower)

/-- Embedding of `PRParserService._is_forwarded_email`: the subject is checked for the
literal (case-sensitive, `str.startswith`) marker, then a non-empty text
body is scanned for at least 3 of the 7 indicators. -/
def _is_forwarded_email (w : PostmarkInboundWebhook) : Bool :=
  if leadMatch ("Fwd:").toList w.Subject.toList then true
  else
    match w.TextBody with
    | some body =>
      if body = "" then false
      else decide (3 ≤ forwardedIndicatorCount body)
    | none => false

/-- The lower-cased subject-plus-body scan text of
`PRParserService._extract_pr_status` (subject, a space, then the body or
the empty string). -/
def statusContent (subject : String) (text_body : Option String) : List Char :=
  lowerChars (subject.toList ++ [' '] ++ (text_body.getD ("")).toList)

def mergedKeywords : List String := ["merged", "merge"]

def closedKeywords : List String := ["closed", "close"]

def openedKeywords : List String := ["opened", "open", "new pull request"]

def updatedKeywords : List String := ["updated", "update"]

/-- Python's `any(word in content for word in kws)`. -/
def hasAnyKeyword (content : List Char) (kws : List String) : Bool :=
  kws.any (fun word => containsSeq word.toList content)

/-- Embedding of `PRParserService._extract_pr_status`: keyword categories checked in
fixed order, defaulting to "opened". -/
def _extract_pr_status (subject : String) (text_body : Option String) : String :=
  let content := statusContent subject text_body
  if hasAnyKeyword content mergedKeywords then "merged"
  else if hasAnyKeyword content closedKeywords then "closed"
  else if hasAnyKeyword content openedKeywords then "opened"
  else if hasAnyKeyword content updatedKeywords then "updated"
  else "opened"

/-- Strip the leading forwarded marker (the regex sub of r'^Fwd:\s*' with
IGNORECASE in `_extract_repo_name` / `_extract_pr_title`). -/
def stripFwdMarker (l : List Char) : List Char :=
  if leadMatch ("fwd:").toList (lowerChars l) then
    (l.drop 4).dropWhile pySpace
  else l

/-- Strip a leading bracket group (the regex sub of r'^\[[^\]]+\]\s*'). -/
def stripLeadBracket (l : List Char) : List Char :=
  match l with
  | '[' :: rest =>
    let inside := rest.takeWhile (fun c => c != ']')
    match inside, rest.dropWhile (fun c => c != ']') with
    | _ :: _, ']' :: tail => tail.dropWhile pySpace
    | _, _ => l
  | _ => l

/-- Strip a trailing "(#123)" or "(PR #123)" group (the regex sub of
r'\s*\((?:PR\s*)?#\d+\)$', case-sensitive), working from the reversed
subject. -/
def stripNumSuffix (l : List Char) : List Char :=
  match l.reverse with
  | ')' :: r1 =>
    let ds := r1.takeWhile pyDigit
    if ds.isEmpty then l
    else
      match r1.dropWhile pyDigit with
      | '#' :: r3 =>
        let afterOpen? :=
          match r3.dropWhile pySpace with
          | 'R' :: 'P' :: '(' :: r6 => some r6
          | _ =>
            match r3 with
            | '(' :: r6 => some r6
            | _ => none
        match afterOpen? with
        | some r6 => (r6.dropWhile pySpace).reverse
        | none => l
      | _ => l
  | _ => l

/-- Squeeze runs of the space character down to a single space (whitespace
having already been mapped to spaces). -/
def squeezeSpaces : List Char → List Char
  | [] => []
  | [c] => [c]
  | a :: b :: rest =>
    if a = ' ' && b = ' ' then squeezeSpaces (b :: rest)
    else a :: squeezeSpaces (b :: rest)

/-- Python's `str.strip` (ASCII whitespace). -/
def stripChars (l : List Char) : List Char :=
  ((l.dropWhile pySpace).reverse.dropWhile pySpace).reverse

/-- The regex sub of r'\s+' by a single space, followed by `str.strip`. -/
def collapseAndTrim (l : List Char) : List Char :=
  stripChars (squeezeSpaces (l.map (fun c => if pySpace c then ' ' else c)))

/-- Embedding of `PRParserService._extract_pr_title`: strip the Fwd marker, a leading
bracket group and a trailing PR-number suffix, collapse whitespace, and
default to "GitHub Notification" when nothing remains. -/
def _extract_pr_title (subject : String) : String :=
  let cleaned := stripNumSuffix (stripLeadBracket (stripFwdMarker subject.toList))
  let title := collapseAndTrim cleaned
  if title.isEmpty then "GitHub Notification" else ⟨title⟩

/-- Chars of the repo-token regex class `[a-zA-Z0-9_.-]`. -/
def repoChar (c : Char) : Bool :=
  pyAlpha c || pyDigit c || c = '_' || c = '.' || c = '-'

/-- One attempt of the bracket pattern r'\[([^/\]]+/[^/\]]+)\]' at the head
of `l`, returning the captured group. -/
def bracketRepoHere (l : List Char) : Option (List Char) :=
  match l with
  | '[' :: rest =>
    let a := rest.takeWhile (fun c => !(c = '/' || c = ']'))
    if a.isEmpty then none
    else
      match rest.dropWhile (fun c => !(c = '/' || c = ']')) with
      | '/' :: rest2 =>
        let b := rest2.takeWhile (fun c => !(c = '/' || c = ']'))
        if b.isEmpty then none
        else
          match rest2.dropWhile (fun c => !(c = '/' || c = ']')) with
          | ']' :: _ => some (a ++ '/' :: b)
          | _ => none
      | _ => none
  | _ => none

/-- Leftmost search for the bracket repo pattern. -/
def searchBracketRepo : List Char → Option (List Char)
  | [] => none
  | c :: tl =>
    match bracketRepoHere (c :: tl) with
    | some g => some g
    | none => searchBracketRepo tl

/-- One attempt of r'(?:\[)?([a-zA-Z0-9_.-]+/[a-zA-Z0-9_.-]+)(?:\])?' at the
head of `l`.  When the head is '[' the optional bracket is consumed (the
class cannot match '[' itself, so no other alternative exists). -/
def altRepoCore (m : List Char) : Option (List Char) :=
  let a := m.takeWhile repoChar
  if a.isEmpty then none
  else
    match m.dropWhile repoChar with
    | '/' :: rest2 =>
      let b := rest2.takeWhile repoChar
      if b.isEmpty then none else some (a ++ '/' :: b)
    | _ => none

def altRepoHere (l : List Char) : Option (List Char) :=
  match l with
  | '[' :: rest => altRepoCore rest
  | _ => altRepoCore l

/-- Leftmost search for the alternative repo pattern. -/
def searchAltRepo : List Char → Option (List Char)
  | [] => none
  | c :: tl =>
    match altRepoHere (c :: tl) with
    | some g => some g
    | none => searchAltRepo tl

/-- Embedding of `PRParserService._extract_repo_name`: bracketed owner/repo first, then
the bare token pattern (whose group always contains '/', so the Python
membership check always passes on a match). -/
def _extract_repo_name (subject : String) : Option String :=
  let clean := stripFwdMarker subject.toList
  match searchBracketRepo clean with
  | some g => some (⟨g⟩ : String)
  | none =>
    match searchAltRepo clean with
    | some g => some (⟨g⟩ : String)
    | none => none

/-- The subject pattern r'(?:PR\s*)?#(\d+)' (IGNORECASE): the captured group
is the digit run after the first '#' directly followed by a digit; the
optional PR marker does not change the group. -/
def searchHashNumber : List Char → Option (List Char)
  | [] => none
  | '#' :: tl =>
    let ds := tl.takeWhile pyDigit
    if ds.isEmpty then searchHashNumber tl else some ds
  | _ :: tl => searchHashNumber tl

/-- The link pattern r'/pull/(\d+)'. -/
def searchPullNumber : List Char → Option (List Char)
  | [] => none
  | c :: tl =>
    if leadMatch ("/pull/").toList (c :: tl) then
      let ds := (tl.drop 5).takeWhile pyDigit
      if ds.isEmpty then searchPullNumber tl else some ds
    else searchPullNumber tl

/-- Embedding of `PRParserService._extract_pr_number`: subject hash pattern first, then
the pull segment of the resolved link. -/
def _extract_pr_number (subject : String) (pr_link : Option String) : Option String :=
  match searchHashNumber subject.toList with
  | some ds => some (⟨ds⟩ : String)
  | none =>
    match pr_link with
    | some link => (searchPullNumber link.toList).map (fun ds => (⟨ds⟩ : String))
    | none => none

/-- Case-insensitive literal match at the head of `hay`. -/
def leadMatchCI (needle hay : List Char) : Bool :=
  leadMatch (lowerChars needle) (lowerChars (hay.take needle.length))

/-- Chars of the email local-part class `[a-zA-Z0-9._%+-]`. -/
def emailLocalChar (c : Char) : Bool :=
  pyAlpha c || pyDigit c || c = '.' || c = '_' || c = '%' || c = '+' || c = '-'

/-- Chars of the email domain class `[a-zA-Z0-9.-]`. -/
def emailDomainChar (c : Char) : Bool :=
  pyAlpha c || pyDigit c || c = '.' || c = '-'

/-- Embedding of `PRParserService._is_valid_email`: full anchored match of
r'^[a-zA-Z0-9._%+-]+@[a-zA-Z0-9.-]+\.[a-zA-Z]{2,}$'.  The dot split is the
last dot of the string (an earlier dot cannot work, because everything
after the chosen dot must be letters). -/
def _is_valid_email (email : String) : Bool :=
  let l := email.toList
  let x := l.takeWhile emailLocalChar
  if x.isEmpty then false
  else
    match l.dropWhile emailLocalChar with
    | '@' :: dom =>
      let r := dom.reverse
      let s := r.takeWhile pyAlpha
      if s.length < 2 then false
      else
        match r.dropWhile pyAlpha with
        | '.' :: pRev => !pRev.isEmpty && pRev.all emailDomainChar
        | _ => false
    | _ => false

/-- A '>'-free angle-bracket content matching `[^>]+@[^>]+`: it must contain
an '@' strictly inside (nonempty on both sides). -/
def innerAt (run : List Char) : Bool :=
  ((run.drop 1).dropLast).contains '@'

/-- Recipient pattern 1, r'To:\s*<([^>]+@[^>]+)>' (IGNORECASE): returns the
captured group and the text after the match. -/
def toAngleHere (l : List Char) : Option (List Char × List Char) :=
  if leadMatchCI ("To:").toList l then
    let rest := (l.drop 3).dropWhile pySpace
    match rest with
    | '<' :: r2 =>
      let run := r2.takeWhile (fun c => c != '>')
      match r2.dropWhile (fun c => c != '>') with
      | '>' :: tail => if innerAt run then some (run, tail) else none
      | _ => none
    | _ => none
  else none

/-- Recipient pattern 2, r'To:\s*([^\s<>\n]+@[^\s<>\n]+)'. -/
def toBareHere (l : List Char) : Option (List Char × List Char) :=
  if leadMatchCI ("To:").toList l then
    let rest := (l.drop 3).dropWhile pySpace
    let run := rest.takeWhile (fun c => !(pySpace c || c = '<' || c = '>'))
    if innerAt run then some (run, rest.drop run.length) else none
  else none

/-- Recipient pattern 3, r'To:\s*[^<\n]*<([^>]+@[^>]+)>': a name part (no
newline) may precede the angle bracket. -/
def toNameAngleHere (l : List Char) : Option (List Char × List Char) :=
  if leadMatchCI ("To:").toList l then
    let rest := (l.drop 3).dropWhile pySpace
    let seg := rest.takeWhile (fun c => !(c = '<' || c = '\n'))
    match rest.drop seg.length with
    | '<' :: r2 =>
      let run := r2.takeWhile (fun c => c != '>')
      match r2.dropWhile (fun c => c != '>') with
      | '>' :: tail => if innerAt run then some (run, tail) else none
      | _ => none
    | _ => none
  else none

/-- Inner lazy search of pattern 4: the first position where pattern 1's
To-angle part matches. -/
def toAngleSearch : List Char → Option (List Char × List Char)
  | [] => none
  | c :: tl =>
    match toAngleHere (c :: tl) with
    | some r => some r
    | none => toAngleSearch tl

/-- Recipient pattern 4,
r'---------- Forwarded message ---------.*?To:\s*<([^>]+@[^>]+)>' with
DOTALL: the forwarded-block delimiter, then the lazily-nearest To-angle. -/
def fwdBlockToHere (l : List Char) : Option (List Char × List Char) :=
  let header := ("---------- Forwarded message ---------").toList
  if leadMatchCI header l then toAngleSearch (l.drop header.length) else none

/-- Rightmost-dot split of an all-domain-class run `m` for the tail
`\.[a-zA-Z]{2,}` of the email patterns: returns the part before the chosen
dot and the letter run after it. -/
def domDotSearch : List Char → Option (List Char × List Char)
  | [] => none
  | c :: tl =>
    match domDotSearch tl with
    | some (pre, letters) => some (c :: pre, letters)
    | none =>
      if c = '.' then
        let letters := tl.takeWhile pyAlpha
        if 2 ≤ letters.length then some ([], letters) else none
      else none

/-- The email sub-pattern `[a-zA-Z0-9._%+-]+@[a-zA-Z0-9.-]+\.[a-zA-Z]{2,}`
at the head of `l`: returns the captured group and the text after it. -/
def emailTokenHere (l : List Char) : Option (List Char × List Char) :=
  let x := l.takeWhile emailLocalChar
  if x.isEmpty then none
  else
    match l.dropWhile emailLocalChar with
    | '@' :: dtail =>
      let m := dtail.takeWhile emailDomainChar
      match domDotSearch m with
      | some (pre, letters) =>
        if pre.isEmpty then none
        else
          let g := x ++ '@' :: pre ++ '.' :: letters
          some (g, dtail.drop (pre.length + 1 + letters.length))
      | none => none
    | _ => none

/-- Recipient pattern 5, r'To:\s*(EMAIL)' with the email sub-pattern. -/
def toEmailHere (l : List Char) : Option (List Char × List Char) :=
  if leadMatchCI ("To:").toList l then
    emailTokenHere ((l.drop 3).dropWhile pySpace)
  else none

/-- Recipient pattern 6, r'(?:To|TO):\s*<?(EMAIL)>?' (IGNORECASE): an
optional angle bracket around the email sub-pattern. -/
def toOptAngleEmailHere (l : List Char) : Option (List Char × List Char) :=
  if leadMatchCI ("To:").toList l then
    let rest := (l.drop 3).dropWhile pySpace
    let body := match rest with
      | '<' :: r2 => r2
      | _ => rest
    match emailTokenHere body with
    | some (g, tail) =>
      let tail2 := match tail with
        | '>' :: t2 => t2
        | _ => tail
      some (g, tail2)
    | none => none
  else none

/-- Driver for `re.findall`: try the pattern at each position, continuing
after the end of every (non-overlapping) match.  `fuel` only bounds the
recursion and is always set at least to the input length. -/
def findAllAux (tryHere : List Char → Option (List Char × List Char)) :
    Nat → List Char → List (List Char)
  | 0, _ => []
  | fuel + 1, l =>
    match tryHere l with
    | some (g, rest) => g :: findAllAux tryHere fuel rest
    | none =>
      match l with
      | [] => []
      | _ :: tl => findAllAux tryHere fuel tl

def findAll (tryHere : List Char → Option (List Char × List Char))
    (l : List Char) : List (List Char) :=
  findAllAux tryHere (l.length + 1) l

/-- The validation loop body shared by the six text patterns: strip each
candidate and return the first one passing `_is_valid_email`. -/
def firstValidIn : List (List Char) → Option String
  | [] => none
  | g :: rest =>
    let e := stripChars g
    if _is_valid_email (⟨e⟩ : String) then some (⟨e⟩ : String) else firstValidIn rest

/-- All text-body matches of the six `To:` patterns, in pattern order
(`_extract_original_recipient_from_content`, text half). -/
def textRecipientMatches (content : List Char) : List (List Char) :=
  findAll toAngleHere content ++ findAll toBareHere content ++
  findAll toNameAngleHere content ++ findAll fwdBlockToHere content ++
  findAll toEmailHere content ++ findAll toOptAngleEmailHere content

def firstValidTextRecipient (content : String) : Option String :=
  firstValidIn (textRecipientMatches content.toList)

/-- Model of the external BeautifulSoup html-to-text rendering used by
`_extract_recipient_from_html`: markup between angle brackets is dropped,
text is kept.  (The library is an external collaborator; only the rendered
text reaches the patterns.) -/
def dropTagsAux : Bool → List Char → List Char
  | _, [] => []
  | true, c :: tl => if c = '>' then dropTagsAux false tl else dropTagsAux true tl
  | false, c :: tl => if c = '<' then dropTagsAux true tl else c :: dropTagsAux false tl

/-- The single-candidate check of `_extract_recipient_from_html`: only the
first match of a pattern is stripped and validated. -/
def headValid (gs : List (List Char)) : Option String :=
  match gs with
  | [] => none
  | g :: _ =>
    let e := stripChars g
    if _is_valid_email (⟨e⟩ : String) then some (⟨e⟩ : String) else none

/-- Embedding of `PRParserService._extract_recipient_from_html`: render the HTML to
text, then try patterns 1 and 5 on the first match each. -/
def _extract_recipient_from_html (html : String) : Option String :=
  let text := dropTagsAux false html.toList
  match headValid (findAll toAngleHere text) with
  | some e => some e
  | none => headValid (findAll toEmailHere text)

/-- Embedding of `PRParserService._extract_original_recipient_from_content`: six text
patterns over the (possibly absent) text body, then the HTML fallback. -/
def _extract_original_recipient_from_content (w : PostmarkInboundWebhook) :
    Option String :=
  match firstValidTextRecipient (w.TextBody.getD ("")) with
  | some e => some e
  | none =>
    match w.HtmlBody with
    | some html => if html = "" then none else _extract_recipient_from_html html
    | none => none

/-- Embedding of `PRParserService.extract_recipient_email`: forwarded messages resolve
the embedded recipient with fallback to the relay-supplied
`OriginalRecipient`; direct messages use `OriginalRecipient` verbatim. -/
def extract_recipient_email (w : PostmarkInboundWebhook) : String :=
  if _is_forwarded_email w then
    match _extract_original_recipient_from_content w with
    | some e => e
    | none => w.OriginalRecipient
  else w.OriginalRecipient

/-- One attempt of the GitHub-notifications pattern
r'From:\s*[^<]*<notifications@github\.com>' (case-sensitive): after the
literal marker, everything up to the next '<' is skipped (whitespace is a
subset of the non-'<' class), which must open the exact address literal. -/
def githubFromHere (l : List Char) : Bool :=
  if leadMatch ("From:").toList l then
    let rest := (l.drop 5).dropWhile (fun c => c != '<')
    leadMatch ("<notifications@github.com>").toList rest
  else false

def searchGithubFrom : List Char → Bool
  | [] => false
  | c :: tl => githubFromHere (c :: tl) || searchGithubFrom tl

/-- The optional trailing group (?:<[^>]+>)? of the forwarded-From pattern:
a greedy angle-bracketed run with nonempty content, or nothing. -/
def optionalAngle (l : List Char) : List Char :=
  match l with
  | '<' :: rest =>
    let inner := rest.takeWhile (fun c => c != '>')
    if inner.isEmpty then []
    else
      match rest.dropWhile (fun c => c != '>') with
      | '>' :: _ => '<' :: inner ++ [('>' : Char)]
      | _ => []
  | _ => []

/-- One attempt of r'From:\s*([^\n<]+(?:<[^>]+>)?)' at the head of `l`,
returning the captured group.  The greedy `\s*` hands one whitespace
character back to the `[^\n<]+` group when the first non-whitespace
character is '<' or the string ends (regex backtracking); a handed-back
newline forces a further step back. -/
def fromLineHere (l : List Char) : Option (List Char) :=
  if leadMatch ("From:").toList l then
    let rest := l.drop 5
    let ws := rest.takeWhile pySpace
    let body := rest.dropWhile pySpace
    match body with
    | [] =>
      match ws.reverse.dropWhile (fun c => c == '\n') with
      | [] => none
      | c :: _ => some [c]
    | '<' :: _ =>
      match ws.reverse with
      | [] => none
      | wlast :: wr =>
        if wlast == '\n' then
          match wr.dropWhile (fun c => c == '\n') with
          | [] => none
          | c :: _ => some [c]
        else some (wlast :: optionalAngle body)
    | _ =>
      let run := body.takeWhile (fun c => !(c == '\n' || c == '<'))
      let after := body.dropWhile (fun c => !(c == '\n' || c == '<'))
      some (run ++ optionalAngle after)
  else none

def searchFromLine : List Char → Option (List Char)
  | [] => none
  | c :: tl =>
    match fromLineHere (c :: tl) with
    | some g => some g
    | none => searchFromLine tl

/-- The inner pattern r'<([^>]+)>' searched inside the captured From line. -/
def searchAngleInner : List Char → Option (List Char)
  | [] => none
  | '<' :: tl =>
    let inner := tl.takeWhile (fun c => c != '>')
    if inner.isEmpty then searchAngleInner tl
    else
      match tl.dropWhile (fun c => c != '>') with
      | '>' :: _ => some inner
      | _ => searchAngleInner tl
  | _ :: tl => searchAngleInner tl

/-- Embedding of `PRParserService._extract_original_sender`: the fixed GitHub address if
the notifications header pattern occurs, else the first From-line's
angle-bracket contents, else the raw stripped From line. -/
def _extract_original_sender (w : PostmarkInboundWebhook) : Option String :=
  match w.TextBody with
  | none => none
  | some body =>
    if body = "" then none
    else
      let bl := body.toList
      if searchGithubFrom bl then some ("notifications@github.com")
      else
        match searchFromLine bl with
        | some g =>
          let from_line := stripChars g
          match searchAngleInner from_line with
          | some inner => some (⟨inner⟩ : String)
          | none => some (⟨from_line⟩ : String)
        | none => none

/-- The `try`-block of `PRParserService.extract_pr_data`.  All helpers
except the link extraction are pure string processing; `_extract_pr_link`
drives the external HTML parser and is the step that can raise, so its
outcome (a value, or an exception) is supplied explicitly as `linkStep`. -/
def tryExtract (w : PostmarkInboundWebhook)
    (linkStep : Except Unit (Option String)) : Except Unit PRExtractionResult := do
  let is_forwarded := _is_forwarded_email w
  let original_sender := if is_forwarded then _extract_original_sender w else none
  let repo_name := _extract_repo_name w.Subject
  let pr_title := _extract_pr_title w.Subject
  let pr_link ← linkStep
  let pr_number := _extract_pr_number w.Subject pr_link
  let pr_status := _extract_pr_status w.Subject w.TextBody
  pure { repo_name := repo_name, pr_title := pr_title, pr_link := pr_link,
         pr_number := pr_number, pr_status := some pr_status,
         is_forwarded := is_forwarded, original_sender := original_sender }

/-- Embedding of `PRParserService.extract_pr_data`: the try-block result, or on any
exception the minimal fallback record built from the raw subject and the
recomputed forwarded flag. -/
def extract_pr_data (w : PostmarkInboundWebhook)
    (linkStep : Except Unit (Option String)) : PRExtractionResult :=
  match tryExtract w linkStep with
  | .ok r => r
  | .error _ => { pr_title := w.Subject, is_forwarded := _is_forwarded_email w }

/-- A stored notification row (`app/models/pr_notification.py`,
`PullRequestNotification`).  `received_at` is a timestamp in seconds; ids
are the session's surrogate keys.  The trailing `created_at`/`updated_at`
timestamp columns are inherited from the project's declarative base
(outside the service sources; the stored spec lists them as
created/updated timestamps) and are set by the persistence layer, here
left at their defaults. -/
structure PullRequestNotification where
  id : Nat
  user_id : Nat
  sender_email : String
  recipient_email : String
  repo_name : Option String
  pr_title : String
  pr_link : Option String
  subject : String
  received_at : Int
  message_id : String
  raw_text : Option String
  raw_html : Option String
  slack_sent : Bool
  pr_number : Option String
  pr_status : Option String
  is_forwarded : Bool
  created_at : Int := 0
  updated_at : Int := 0
deriving Repr, DecidableEq

/-- A user's Slack connection (`app/models/slack_connection.py`), reduced
to the fields the dispatch path reads. -/
structure SlackConnection where
  access_token : String
  slack_user_id : String
  team_name : String
deriving Repr, DecidableEq

/-- A user row (`app/models/user.py`), reduced to the fields the services
read. -/
structure User where
  id : Nat
  email : String
  name : String
  slack_connection : Option SlackConnection
deriving Repr, DecidableEq

/-- The notification table together with the session's id allocator. -/
structure Db where
  notifications : List PullRequestNotification
  nextId : Nat
deriving Repr, DecidableEq

/-- Outcomes of the external collaborators: the lenient date parser behind
`PRParserService.parse_date` and the success flag of the Slack
`chat.postMessage` call made by
`SlackNotificationService._send_slack_message` (an exception inside the
send helper also surfaces as a non-success result). -/
structure Env where
  parse_date : String → Int
  slack_send_ok : Bool

/-- In-place `notification.slack_sent = True` on the row found by a query:
the first row satisfying the predicate is updated, the rest untouched. -/
def setSentFirstP (p : PullRequestNotification → Bool) :
    List PullRequestNotification → List PullRequestNotification
  | [] => []
  | n :: rest =>
    if p n then { n with slack_sent := true } :: rest
    else n :: setSentFirstP p rest

/-- Embedding of `PRNotificationService.create_pr_notification`: look up by provider
message id and return any existing row unchanged; otherwise build the row
(`slack_sent = False`), persist it, then attempt the direct Slack send —
on a reported success the new row is committed with `slack_sent = True`.
A missing connection, a failed send or a send exception leaves the row
pending. -/
def create_pr_notification (env : Env) (db : Db) (w : PostmarkInboundWebhook)
    (extracted : PRExtractionResult) (user : User) :
    Db × PullRequestNotification :=
  match db.notifications.find? (fun n => n.message_id == w.MessageID) with
  | some existing => (db, existing)
  | none =>
    let received_at := env.parse_date w.Date
    let sender_email :=
      match extracted.original_sender with
      | some s => if extracted.is_forwarded && s != "" then s else w.From
      | none => w.From
    let recipient_email := extract_recipient_email w
    let n : PullRequestNotification :=
      { id := db.nextId, user_id := user.id, sender_email := sender_email,
        recipient_email := recipient_email, repo_name := extracted.repo_name,
        pr_title := extracted.pr_title, pr_link := extracted.pr_link,
        subject := w.Subject, received_at := received_at,
        message_id := w.MessageID, raw_text := w.TextBody,
        raw_html := w.HtmlBody, slack_sent := false,
        pr_number := extracted.pr_number, pr_status := extracted.pr_status,
        is_forwarded := extracted.is_forwarded }
    match user.slack_connection with
    | some _ =>
      if env.slack_send_ok then
        let n' := { n with slack_sent := true }
        ({ notifications := db.notifications ++ [n'], nextId := db.nextId + 1 }, n')
      else ({ notifications := db.notifications ++ [n], nextId := db.nextId + 1 }, n)
    | none => ({ notifications := db.notifications ++ [n], nextId := db.nextId + 1 }, n)

/-- Embedding of `PRNotificationService.retry_slack_notification`: find the record and
its owner, require a Slack connection, then send unconditionally; the
result triple is (state, reported success, collaborator calls made). -/
def retry_slack_notification (env : Env) (db : Db) (users : List User)
    (notification_id : Nat) : Db × Bool × Nat :=
  match db.notifications.find? (fun n => n.id == notification_id) with
  | none => (db, false, 0)
  | some n =>
    match users.find? (fun u => u.id == n.user_id) with
    | none => (db, false, 0)
    | some u =>
      match u.slack_connection with
      | none => (db, false, 0)
      | some _ =>
        if env.slack_send_ok then
          ({ db with notifications :=
              setSentFirstP (fun m => m.id == notification_id) db.notifications },
           true, 1)
        else (db, false, 1)

/-- Embedding of `AutoSlackService.trigger_slack_notification`: like the retry, but an
already-sent record is skipped and reported as success before any
collaborator call. -/
def trigger_slack_notification (env : Env) (db : Db) (users : List User)
    (notification_id : Nat) : Db × Bool × Nat :=
  match db.notifications.find? (fun n => n.id == notification_id) with
  | none => (db, false, 0)
  | some n =>
    match users.find? (fun u => u.id == n.user_id) with
    | none => (db, false, 0)
    | some u =>
      match u.slack_connection with
      | none => (db, false, 0)
      | some _ =>
        if n.slack_sent then (db, true, 0)
        else if env.slack_send_ok then
          ({ db with notifications :=
              setSentFirstP (fun m => m.id == notification_id) db.notifications },
           true, 1)
        else (db, false, 1)

/-- One `timedelta(days=1)` in the seconds of `received_at`. -/
def secondsPerDay : Int := 86400

/-- The deletion condition of
`PRReminderBackgroundService.cleanup_old_notifications_task`: received
strictly before the cutoff and status merged or closed. -/
def cleanupCond (cutoff : Int) (n : PullRequestNotification) : Bool :=
  n.received_at < cutoff &&
    (n.pr_status == some ("merged") || n.pr_status == some ("closed"))

/-- Embedding of `PRReminderBackgroundService.cleanup_old_notifications_task`: bulk
delete of old merged/closed rows, returning the deleted count. -/
def cleanup_old_notifications_task (db : Db) (now : Int)
    (cleanup_threshold_days : Int) : Db × Nat :=
  let cutoff := now - cleanup_threshold_days * secondsPerDay
  ({ db with notifications :=
      db.notifications.filter (fun n => !(cleanupCond cutoff n)) },
   db.notifications.countP (cleanupCond cutoff))

/-- Embedding of `PRManagementService.delete_pr_notification`: ownership-scoped lookup,
then deletion of the found row. -/
def delete_pr_notification (db : Db) (notification_id user_id : Nat) :
    Db × Bool :=
  match db.notifications.find?
      (fun n => n.id == notification_id && n.user_id == user_id) with
  | none => (db, false)
  | some _ =>
    let kept := db.notifications.eraseP
      (fun n => n.id == notification_id && n.user_id == user_id)
    ({ db with notifications := kept }, true)

/-- Embedding of `PRManagementService.mark_slack_sent`: ownership-scoped lookup, then
`slack_sent = True` on the found row. -/
def mark_slack_sent (db : Db) (notification_id user_id : Nat) : Db × Bool :=
  match db.notifications.find?
      (fun n => n.id == notification_id && n.user_id == user_id) with
  | none => (db, false)
  | some _ =>
    let updated := setSentFirstP
      (fun n => n.id == notification_id && n.user_id == user_id) db.notifications
    ({ db with notifications := updated }, true)

/-- The mapped column attributes of the notification model, the names on
which the `getattr(PullRequestNotification, filters.sort_by, None)`
lookup of `PRManagementService._apply_sorting` finds a column. -/
inductive SortColumn
  | colId | colUserId | colSenderEmail | colRecipientEmail | colRepoName
  | colPrTitle | colPrLink | colSubject | colReceivedAt | colMessageId
  | colRawText | colRawHtml | colSlackSent | colPrNumber | colPrStatus
  | colIsForwarded | colCreatedAt | colUpdatedAt
deriving Repr, DecidableEq

/-- The mapped-column name table: the sort-field strings on which the
`getattr` lookup finds a column attribute of the model. -/
def getColumn (s : String) : Option SortColumn :=
  if s == "id" then some SortColumn.colId
  else if s == "user_id" then some SortColumn.colUserId
  else if s == "sender_email" then some SortColumn.colSenderEmail
  else if s == "recipient_email" then some SortColumn.colRecipientEmail
  else if s == "repo_name" then some SortColumn.colRepoName
  else if s == "pr_title" then some SortColumn.colPrTitle
  else if s == "pr_link" then some SortColumn.colPrLink
  else if s == "subject" then some SortColumn.colSubject
  else if s == "received_at" then some SortColumn.colReceivedAt
  else if s == "message_id" then some SortColumn.colMessageId
  else if s == "raw_text" then some SortColumn.colRawText
  else if s == "raw_html" then some SortColumn.colRawHtml
  else if s == "slack_sent" then some SortColumn.colSlackSent
  else if s == "pr_number" then some SortColumn.colPrNumber
  else if s == "pr_status" then some SortColumn.colPrStatus
  else if s == "is_forwarded" then some SortColumn.colIsForwarded
  else if s == "created_at" then some SortColumn.colCreatedAt
  else if s == "updated_at" then some SortColumn.colUpdatedAt
  else none

/-- What `getattr(PullRequestNotification, name, None)` can find: a mapped
column, or some other (truthy) non-column class attribute — the `user`
relationship, the declarative machinery (`metadata`, `registry`),
`__tablename__`, `__repr__` and the further members every Python class
carries. -/
inductive ClassAttr
  | column (c : SortColumn)
  | nonColumn
deriving Repr, DecidableEq

/-- A concrete attribute dictionary for the mapped class, exact on every
name the theorems below evaluate it at: the mapped columns map to their
columns, the non-column class members visible in the source and the
declarative machinery are non-column attributes, and a name such as
"bogus" is not an attribute of the class at all. -/
def pyModelAttrs (s : String) : Option ClassAttr :=
  match getColumn s with
  | some c => some (ClassAttr.column c)
  | none =>
    if (["user", "metadata", "registry", "__tablename__", "__repr__"] :
        List String).contains s
    then some ClassAttr.nonColumn
    else none

/-- SQL ordering on nullable text columns: nulls first, then text order. -/
def optStrLe (a b : Option String) : Bool :=
  match a, b with
  | none, _ => true
  | some _, none => false
  | some x, some y => decide (x ≤ y)

def boolLe (a b : Bool) : Bool := !a || b

/-- The non-strict comparison realising `asc(column)` for each column. -/
def columnLe (c : SortColumn) (a b : PullRequestNotification) : Bool :=
  match c with
  | SortColumn.colId => decide (a.id ≤ b.id)
  | SortColumn.colUserId => decide (a.user_id ≤ b.user_id)
  | SortColumn.colSenderEmail => decide (a.sender_email ≤ b.sender_email)
  | SortColumn.colRecipientEmail => decide (a.recipient_email ≤ b.recipient_email)
  | SortColumn.colRepoName => optStrLe a.repo_name b.repo_name
  | SortColumn.colPrTitle => decide (a.pr_title ≤ b.pr_title)
  | SortColumn.colPrLink => optStrLe a.pr_link b.pr_link
  | SortColumn.colSubject => decide (a.subject ≤ b.subject)
  | SortColumn.colReceivedAt => decide (a.received_at ≤ b.received_at)
  | SortColumn.colMessageId => decide (a.message_id ≤ b.message_id)
  | SortColumn.colRawText => optStrLe a.raw_text b.raw_text
  | SortColumn.colRawHtml => optStrLe a.raw_html b.raw_html
  | SortColumn.colSlackSent => boolLe a.slack_sent b.slack_sent
  | SortColumn.colPrNumber => optStrLe a.pr_number b.pr_number
  | SortColumn.colPrStatus => optStrLe a.pr_status b.pr_status
  | SortColumn.colIsForwarded => boolLe a.is_forwarded b.is_forwarded
  | SortColumn.colCreatedAt => decide (a.created_at ≤ b.created_at)
  | SortColumn.colUpdatedAt => decide (a.updated_at ≤ b.updated_at)

/-- Insertion into a list sorted by the boolean comparison `le`. -/
def insertLe (le : α → α → Bool) (a : α) : List α → List α
  | [] => [a]
  | b :: l => if le a b then a :: b :: l else b :: insertLe le a l

/-- A sort realising the database `ORDER BY` over the comparison `le`. -/
def sortByLe (le : α → α → Bool) : List α → List α
  | [] => []
  | a :: l => insertLe le a (sortByLe le l)

/-- Embedding of `PRManagementService._apply_sorting`.  The source looks the
sort field up with `getattr(PullRequestNotification, filters.sort_by,
None)`; the class dictionary holds more than the mapped columns
(relationship, declarative machinery, dunder members), so the lookup is
supplied as the parameter `attrs`.  A missing attribute yields `None`,
the only falsy outcome, and the received-time column is substituted; any
attribute found is truthy and is handed to `asc()`/`desc()` — a mapped
column sorts by that column in the requested direction ("asc" ascending,
anything else descending), while a non-column attribute makes the call
raise or emit an order-by over no mapped column, an outcome returned
here as an error and not modelled further. -/
def _apply_sorting (attrs : String → Option ClassAttr)
    (l : List PullRequestNotification) (sort_by sort_order : String) :
    Except Unit (List PullRequestNotification) :=
  let orderBy := fun col =>
    if sort_order == "asc" then sortByLe (columnLe col) l
    else sortByLe (fun a b => columnLe col b a) l
  match attrs sort_by with
  | none => Except.ok (orderBy SortColumn.colReceivedAt)
  | some (ClassAttr.column col) => Except.ok (orderBy col)
  | some ClassAttr.nonColumn => Except.error ()

/-- Sample environment whose Slack collaborator reports success. -/
def sampleEnvOk : Env := { parse_date := fun _ => 0, slack_send_ok := true }

/-- Sample environment whose Slack collaborator reports failure. -/
def sampleEnvFail : Env := { parse_date := fun _ => 0, slack_send_ok := false }

/-- A sample stored notification row. -/
def sampleRowA : PullRequestNotification :=
  { id := 1, user_id := 10, sender_email := "s@x.co", recipient_email := "r@x.co",
    repo_name := some ("a/b"), pr_title := "T1", pr_link := none, subject := "S1",
    received_at := 100, message_id := "mA", raw_text := none, raw_html := none,
    slack_sent := false, pr_number := none, pr_status := some ("opened"),
    is_forwarded := false }

/-- A second sample row, received later. -/
def sampleRowB : PullRequestNotification :=
  { sampleRowA with id := 2, message_id := "mB", received_at := 200 }

/-- A sample row already relayed to Slack. -/
def sampleRowSent : PullRequestNotification :=
  { sampleRowA with id := 7, message_id := "mS", slack_sent := true }

/-- The store holding only the already-relayed sample row. -/
def dbSent : Db := { notifications := [sampleRowSent], nextId := 8 }

/-- The store holding the two sample rows. -/
def dbTwo : Db := { notifications := [sampleRowA, sampleRowB], nextId := 3 }

/-- A sample user with a Slack connection. -/
def sampleUserConn : User :=
  { id := 10, email := "u@x.co", name := "U",
    slack_connection := some { access_token := "tok", slack_user_id := "U123",
                               team_name := "team" } }

/-- A sample webhook whose subject carries the upper-case marker "FWD:". -/
def fwdUpperWebhook : PostmarkInboundWebhook :=
  { From := "a@b.co", To := "in@relay.co", OriginalRecipient := "in@relay.co",
    Subject := "FWD: release notes", MessageID := "m-upper", Date := "",
    TextBody := none, HtmlBody := none }

/-- A sample webhook whose body carries exactly 2 of the 7 indicators. -/
def twoIndicatorWebhook : PostmarkInboundWebhook :=
  { From := "a@b.co", To := "in@relay.co", OriginalRecipient := "in@relay.co",
    Subject := "status", MessageID := "m-two", Date := "",
    TextBody := some ("From: a\nDate: b"), HtmlBody := none }

/-- A sample webhook whose body carries exactly 3 of the 7 indicators. -/
def threeIndicatorWebhook : PostmarkInboundWebhook :=
  { From := "a@b.co", To := "in@relay.co", OriginalRecipient := "in@relay.co",
    Subject := "status", MessageID := "m-three", Date := "",
    TextBody := some ("From: a\nDate: b\nTo: c"), HtmlBody := none }

/-- A sample webhook with an empty subject. -/
def emptySubjectWebhook : PostmarkInboundWebhook :=
  { From := "a@b.co", To := "in@relay.co", OriginalRecipient := "in@relay.co",
    Subject := "", MessageID := "m-empty", Date := "",
    TextBody := none, HtmlBody := none }

/-- A sample direct (non-forwarded) webhook. -/
def directWebhook : PostmarkInboundWebhook :=
  { From := "a@b.co", To := "in@relay.co", OriginalRecipient := "in@relay.co",
    Subject := "[a/b] X (#9)", MessageID := "m-direct", Date := "",
    TextBody := none, HtmlBody := none }

/-- A sample forwarded webhook with no parseable To-line anywhere. -/
def fwdNoToWebhook : PostmarkInboundWebhook :=
  { From := "a@b.co", To := "in@relay.co", OriginalRecipient := "in@relay.co",
    Subject := "Fwd: [a/b] X (#9)", MessageID := "m-noto", Date := "",
    TextBody := none, HtmlBody := none }

/-- The forwarded classification exactly as the claim sentence states it:
a case-insensitive subject marker, or at least 3 of the 7 indicators in
the plain-text body. -/
def specForwardedClassification (w : PostmarkInboundWebhook) : Bool :=
  leadMatchCI ("Fwd:").toList w.Subject.toList ||
  decide (3 ≤ forwardedIndicatorCount (w.TextBody.getD ("")))

/-- The classification the code actually computes, written without the
body-truthiness gate: a case-sensitive subject marker, or at least 3 of
the 7 indicators in the plain-text body. -/
def forwardedClassificationAmended (w : PostmarkInboundWebhook) : Bool :=
  leadMatch ("Fwd:").toList w.Subject.toList ||
  decide (3 ≤ forwardedIndicatorCount (w.TextBody.getD ("")))

/-!
Sanity checks of the embedding on concrete inputs, including the
end-to-end scenario of the specification.
-/

example : _is_forwarded_email
    { From := "a@b.co", To := "x@y.co", OriginalRecipient := "x@y.co",
      Subject := "Fwd: hello", MessageID := "m1", Date := "",
      TextBody := none, HtmlBody := none } = true := by decide

example : _is_forwarded_email
    { From := "a@b.co", To := "x@y.co", OriginalRecipient := "x@y.co",
      Subject := "FWD: hello", MessageID := "m1", Date := "",
      TextBody := none, HtmlBody := none } = false := by decide

example : _is_forwarded_email
    { From := "a@b.co", To := "x@y.co", OriginalRecipient := "x@y.co",
      Subject := "hello", MessageID := "m1", Date := "",
      TextBody := some ("From: a\nDate: b\nTo: c"), HtmlBody := none } = true := by decide

example : _is_forwarded_email
    { From := "a@b.co", To := "x@y.co", OriginalRecipient := "x@y.co",
      Subject := "hello", MessageID := "m1", Date := "",
      TextBody := some ("From: a\nDate: b"), HtmlBody := none } = false := by decide

example : _extract_pr_status ("A opened PR was merged") none = "merged" := by decide

example : _extract_pr_status ("nothing relevant here") none = "opened" := by decide

example : _extract_pr_status ("PR was updated") none = "updated" := by decide

example : _extract_pr_title ("Fwd: [a/b] Fix bug (#42)") = "Fix bug" := by decide

example : _extract_pr_title ("Fwd: [a/b] (#1)") = "GitHub Notification" := by decide

example : _extract_pr_title ("   ") = "GitHub Notification" := by decide

example : _extract_pr_title ("Fwd: [barth007/dial-a-doc] Mydocapp (PR #37)") = "Mydocapp" := by decide

example : _extract_repo_name ("Fwd: [barth007/dial-a-doc] Mydocapp (PR #37)")
    = some ("barth007/dial-a-doc") := by decide

example : _extract_repo_name ("no repo here!") = none := by decide

example : _extract_repo_name ("bare owner/repo mention") = some ("owner/repo") := by decide

example : _extract_pr_number ("Fix bug (PR #37)") none = some ("37") := by decide

example : _extract_pr_number ("Fix bug") (some ("https://github.com/a/b/pull/12"))
    = some ("12") := by decide

example : _extract_pr_number ("Fix bug") none = none := by decide

example : _is_valid_email ("basseybartholomew237@gmail.com") = true := by decide

example : _is_valid_email ("a@b") = false := by decide

example : _is_valid_email ("a b@c.com") = false := by decide

example : _is_valid_email ("a@b.co") = true := by decide

example : firstValidTextRecipient ("To: <real@x.com>\nhello") = some ("real@x.com") := by decide

example : firstValidTextRecipient ("To: Some Name <real@x.com>") = some ("real@x.com") := by decide

example : firstValidTextRecipient ("nothing to see") = none := by decide

example : firstValidTextRecipient ("To: not an address") = none := by decide

example : extract_recipient_email
    { From := "a@b.co", To := "in@relay.co", OriginalRecipient := "in@relay.co",
      Subject := "Fwd: [a/b] X (#9)", MessageID := "m1", Date := "",
      TextBody := some ("To: <basseybartholomew237@gmail.com>"), HtmlBody := none }
    = "basseybartholomew237@gmail.com" := by decide

example : extract_recipient_email
    { From := "a@b.co", To := "in@relay.co", OriginalRecipient := "in@relay.co",
      Subject := "Fwd: [a/b] X (#9)", MessageID := "m1", Date := "",
      TextBody := none, HtmlBody := none } = "in@relay.co" := by decide

example : extract_recipient_email
    { From := "a@b.co", To := "in@relay.co", OriginalRecipient := "in@relay.co",
      Subject := "[a/b] X (#9)", MessageID := "m1", Date := "",
      TextBody := some ("To: <real@x.com>"), HtmlBody := none } = "in@relay.co" := by decide

example : extract_pr_data
    { From := "bartholomew.bassey@st.futminna.edu.ng", To := "in@relay.co",
      OriginalRecipient := "in@relay.co",
      Subject := "Fwd: [barth007/dial-a-doc] Mydocapp (PR #37)", MessageID := "m1",
      Date := "", TextBody := some ("To: <basseybartholomew237@gmail.com>\nFrom: BARTHOLOMEW BASSEY <bartholomew.bassey@st.futminna.edu.ng>"),
      HtmlBody := none } (Except.ok none)
    = { repo_name := some ("barth007/dial-a-doc"), pr_title := "Mydocapp",
        pr_link := none, pr_number := some ("37"), pr_status := some ("opened"),
        is_forwarded := true,
        original_sender := some ("bartholomew.bassey@st.futminna.edu.ng") } := by decide

example : extract_pr_data
    { From := "a@b.co", To := "in@relay.co", OriginalRecipient := "in@relay.co",
      Subject := "Fwd: [a/b] Fix (#2)", MessageID := "m1", Date := "",
      TextBody := none, HtmlBody := none } (Except.error ())
    = { pr_title := "Fwd: [a/b] Fix (#2)", is_forwarded := true } := by decide

/-!
Generic lemmas about the list operations used by the store embedding.
-/

theorem insertLe_perm (le : α → α → Bool) (a : α) (l : List α) :
    (insertLe le a l).Perm (a :: l) := by
  induction l with
  | nil => simp [insertLe]
  | cons b t ih =>
    rw [insertLe]
    by_cases h : le a b = true
    · rw [if_pos h]
    · rw [if_neg h]
      exact (List.Perm.cons b ih).trans (List.Perm.swap a b t)

theorem insertLe_pairwise (le : α → α → Bool)
    (htot : ∀ a b, le a b = false → le b a = true)
    (htrans : ∀ a b c, le a b = true → le b c = true → le a c = true)
    (a : α) {l : List α} (h : l.Pairwise fun x y => le x y = true) :
    (insertLe le a l).Pairwise fun x y => le x y = true := by
  induction l with
  | nil => simp [insertLe]
  | cons b t ih =>
    rw [List.pairwise_cons] at h
    obtain ⟨hb, ht⟩ := h
    rw [insertLe]
    by_cases hab : le a b = true
    · rw [if_pos hab]
      refine List.Pairwise.cons ?_ (List.Pairwise.cons hb ht)
      intro x hx
      rcases List.mem_cons.mp hx with rfl | hx
      · exact hab
      · exact htrans a b x hab (hb x hx)
    · rw [if_neg hab]
      have hba : le b a = true := htot a b (by simpa using hab)
      refine List.Pairwise.cons ?_ (ih ht)
      intro x hx
      have hx' := (insertLe_perm le a t).mem_iff.mp hx
      rcases List.mem_cons.mp hx' with rfl | hx'
      · exact hba
      · exact hb x hx'

theorem sortByLe_perm (le : α → α → Bool) (l : List α) :
    (sortByLe le l).Perm l := by
  induction l with
  | nil => simp [sortByLe]
  | cons a t ih =>
    rw [sortByLe]
    exact (insertLe_perm le a (sortByLe le t)).trans (List.Perm.cons a ih)

theorem sortByLe_pairwise (le : α → α → Bool)
    (htot : ∀ a b, le a b = false → le b a = true)
    (htrans : ∀ a b c, le a b = true → le b c = true → le a c = true)
    (l : List α) :
    (sortByLe le l).Pairwise fun x y => le x y = true := by
  induction l with
  | nil => simp [sortByLe]
  | cons a t ih =>
    rw [sortByLe]
    exact insertLe_pairwise le htot htrans a ih

theorem find?_eq_none_of_countP_zero {p : α → Bool} {l : List α}
    (h : l.countP p = 0) : l.find? p = none := by
  rw [List.find?_eq_none]
  intro x hx
  have := List.countP_eq_zero.mp h x hx
  simpa using this

theorem find?_append_of_none {p : α → Bool} {l₁ l₂ : List α}
    (h : l₁.find? p = none) : (l₁ ++ l₂).find? p = l₂.find? p := by
  rw [List.find?_append, h]
  rfl

theorem eraseP_append_first {p : PullRequestNotification → Bool}
    (pre post : List PullRequestNotification) (n : PullRequestNotification)
    (hpre : ∀ m ∈ pre, p m = false) (hn : p n = true) :
    (pre ++ n :: post).eraseP p = pre ++ post := by
  induction pre with
  | nil => simp [List.eraseP_cons, hn]
  | cons m t ih =>
    have hm := hpre m (List.mem_cons_self m t)
    have ht : ∀ x ∈ t, p x = false := fun x hx => hpre x (List.mem_cons_of_mem m hx)
    simp [List.eraseP_cons, hm, ih ht]

theorem setSentFirstP_append_first {p : PullRequestNotification → Bool}
    (pre post : List PullRequestNotification) (n : PullRequestNotification)
    (hpre : ∀ m ∈ pre, p m = false) (hn : p n = true) :
    setSentFirstP p (pre ++ n :: post)
      = pre ++ ({ n with slack_sent := true }) :: post := by
  induction pre with
  | nil => simp [setSentFirstP, hn]
  | cons m t ih =>
    have hm := hpre m (List.mem_cons_self m t)
    have ht : ∀ x ∈ t, p x = false := fun x hx => hpre x (List.mem_cons_of_mem m hx)
    simp [setSentFirstP, hm, ih ht]

/-- C2 counterexample: a subject beginning with the upper-case marker
"FWD:" is forwarded under the claim's case-insensitive reading, but the
code's case-sensitive `startswith` classifies the message as not
forwarded (its body has no indicators). -/
theorem is_forwarded_case_counterexample :
    specForwardedClassification fwdUpperWebhook = true ∧
    _is_forwarded_email fwdUpperWebhook = false :=
  ⟨by decide, by decide⟩

/-- C2 (amended): the parser classifies a message as forwarded iff its
subject begins with the case-sensitive marker "Fwd:" or its plain-text
body contains at least 3 of the 7 indicator substrings
(case-insensitively); in particular exactly 2 indicators do not suffice
and exactly 3 do. -/
theorem is_forwarded_email_characterisation :
    (∀ w, _is_forwarded_email w = forwardedClassificationAmended w) ∧
    _is_forwarded_email twoIndicatorWebhook = false ∧
    _is_forwarded_email threeIndicatorWebhook = true := by
  refine ⟨?_, by decide, by decide⟩
  intro w
  unfold _is_forwarded_email forwardedClassificationAmended
  by_cases hs : leadMatch ("Fwd:").toList w.Subject.toList = true
  · rw [if_pos hs, hs, Bool.true_or]
  · have hs' : leadMatch ("Fwd:").toList w.Subject.toList = false := by
      simpa using hs
    rw [if_neg hs, hs', Bool.false_or]
    cases htb : w.TextBody with
    | none =>
      simp only [Option.getD]
      decide
    | some body =>
      simp only [Option.getD]
      by_cases hb : body = ""
      · subst hb
        rw [if_pos rfl]
        decide
      · rw [if_neg hb]

/-- C4: extraction never raises to its caller — when the throwing step
fails, `extract_pr_data` still returns the fallback record whose title is
the raw subject and whose forwarded flag is the recomputed
classification. -/
theorem extract_pr_data_never_raises (w : PostmarkInboundWebhook)
    (linkStep : Except Unit (Option String)) (e : Unit)
    (h : linkStep = Except.error e) :
    (extract_pr_data w linkStep).pr_title = w.Subject ∧
    (extract_pr_data w linkStep).is_forwarded = _is_forwarded_email w := by
  subst h
  exact ⟨rfl, rfl⟩

/-- Witness for the C4 theorem at a concrete webhook and failing step. -/
theorem extract_pr_data_never_raises_witness :
    (extract_pr_data fwdUpperWebhook (Except.error ())).pr_title
        = fwdUpperWebhook.Subject ∧
    (extract_pr_data fwdUpperWebhook (Except.error ())).is_forwarded
        = _is_forwarded_email fwdUpperWebhook :=
  extract_pr_data_never_raises fwdUpperWebhook (Except.error ()) () rfl

/-- The normal-path title is never the empty string. -/
theorem extract_pr_title_ne_empty (subject : String) :
    _extract_pr_title subject ≠ "" := by
  unfold _extract_pr_title
  by_cases ht :
      (collapseAndTrim (stripNumSuffix (stripLeadBracket (stripFwdMarker subject.toList)))).isEmpty = true
  · rw [if_pos ht]
    decide
  · rw [if_neg ht]
    intro hEq
    apply ht
    have hdata := congrArg String.data hEq
    simpa using hdata

/-- When the subject strips to nothing the normal-path title is the
default literal. -/
theorem extract_pr_title_default (subject : String)
    (h : collapseAndTrim (stripNumSuffix (stripLeadBracket (stripFwdMarker subject.toList))) = []) :
    _extract_pr_title subject = "GitHub Notification" := by
  simp only [_extract_pr_title]
  rw [h]
  rfl

/-- C6 counterexample: on the exception-fallback path with an empty
subject the returned title is the empty string, refuting the claim that
the result of extraction (including via the fallback path) always has a
non-empty title. -/
theorem pr_title_empty_counterexample :
    (extract_pr_data emptySubjectWebhook (Except.error ())).pr_title = "" := by
  decide

/-- C6 (amended): the normal-path title is never empty and defaults to
"GitHub Notification" when the subject strips to nothing; the returned
record's title is empty only when extraction fell back on an exception
and the raw subject itself was empty. -/
theorem pr_title_invariant_amended :
    (∀ subject : String, _extract_pr_title subject ≠ "" ∧
      (collapseAndTrim (stripNumSuffix (stripLeadBracket (stripFwdMarker subject.toList))) = [] →
        _extract_pr_title subject = "GitHub Notification")) ∧
    (∀ (w : PostmarkInboundWebhook) (linkStep : Except Unit (Option String)),
      (extract_pr_data w linkStep).pr_title = "" →
      w.Subject = "" ∧ ∃ e, linkStep = Except.error e) := by
  constructor
  · intro subject
    exact ⟨extract_pr_title_ne_empty subject, extract_pr_title_default subject⟩
  · intro w linkStep h
    cases linkStep with
    | ok v =>
      exfalso
      exact extract_pr_title_ne_empty w.Subject h
    | error e =>
      exact ⟨h, e, rfl⟩

/-- Witness for the C6 amended theorem: the stripped-empty default at a
concrete subject, and the empty-subject fact extracted from a concrete
fallback run. -/
theorem pr_title_invariant_amended_witness :
    _extract_pr_title ("Fwd: [a/b] (#1)") = "GitHub Notification" ∧
    emptySubjectWebhook.Subject = "" :=
  ⟨(pr_title_invariant_amended.1 ("Fwd: [a/b] (#1)")).2 (by decide),
   (pr_title_invariant_amended.2 emptySubjectWebhook (Except.error ()) (by decide)).1⟩

/-- C7: the PR status scan checks merged, closed, opened, updated keyword
categories in that order over the lower-cased subject-plus-body text, the
first match winning, with default "opened". -/
theorem pr_status_keyword_precedence :
    (∀ s b, hasAnyKeyword (statusContent s b) mergedKeywords = true →
      _extract_pr_status s b = "merged") ∧
    (∀ s b, hasAnyKeyword (statusContent s b) mergedKeywords = false →
      hasAnyKeyword (statusContent s b) closedKeywords = true →
      _extract_pr_status s b = "closed") ∧
    (∀ s b, hasAnyKeyword (statusContent s b) mergedKeywords = false →
      hasAnyKeyword (statusContent s b) closedKeywords = false →
      hasAnyKeyword (statusContent s b) openedKeywords = true →
      _extract_pr_status s b = "opened") ∧
    (∀ s b, hasAnyKeyword (statusContent s b) mergedKeywords = false →
      hasAnyKeyword (statusContent s b) closedKeywords = false →
      hasAnyKeyword (statusContent s b) openedKeywords = false →
      hasAnyKeyword (statusContent s b) updatedKeywords = true →
      _extract_pr_status s b = "updated") ∧
    (∀ s b, hasAnyKeyword (statusContent s b) mergedKeywords = false →
      hasAnyKeyword (statusContent s b) closedKeywords = false →
      hasAnyKeyword (statusContent s b) openedKeywords = false →
      hasAnyKeyword (statusContent s b) updatedKeywords = false →
      _extract_pr_status s b = "opened") := by
  refine ⟨?_, ?_, ?_, ?_, ?_⟩
  · intro s b h1
    unfold _extract_pr_status
    rw [if_pos h1]
  · intro s b h1 h2
    unfold _extract_pr_status
    rw [if_neg (by simp [h1]), if_pos h2]
  · intro s b h1 h2 h3
    unfold _extract_pr_status
    rw [if_neg (by simp [h1]), if_neg (by simp [h2]), if_pos h3]
  · intro s b h1 h2 h3 h4
    unfold _extract_pr_status
    rw [if_neg (by simp [h1]), if_neg (by simp [h2]), if_neg (by simp [h3]),
      if_pos h4]
  · intro s b h1 h2 h3 h4
    unfold _extract_pr_status
    rw [if_neg (by simp [h1]), if_neg (by simp [h2]), if_neg (by simp [h3]),
      if_neg (by simp [h4])]

/-- Witness for the C7 theorem: each precedence branch at a concrete
input; the first one exercises content carrying both merged and opened
keywords. -/
theorem pr_status_keyword_precedence_witness :
    _extract_pr_status ("PR opened then merged") none = "merged" ∧
    _extract_pr_status ("this was closed") none = "closed" ∧
    _extract_pr_status ("a new pull request") none = "opened" ∧
    _extract_pr_status ("branch updated") none = "updated" ∧
    _extract_pr_status ("hello world") none = "opened" :=
  ⟨pr_status_keyword_precedence.1 ("PR opened then merged") none (by decide),
   pr_status_keyword_precedence.2.1 ("this was closed") none (by decide) (by decide),
   pr_status_keyword_precedence.2.2.1 ("a new pull request") none
     (by decide) (by decide) (by decide),
   pr_status_keyword_precedence.2.2.2.1 ("branch updated") none
     (by decide) (by decide) (by decide) (by decide),
   pr_status_keyword_precedence.2.2.2.2 ("hello world") none
     (by decide) (by decide) (by decide) (by decide)⟩

/-- C5: recipient resolution is total with ordered fallback — a
non-forwarded message resolves to the relay-supplied recipient verbatim,
and a forwarded message in which neither the text body nor the HTML body
yields a To-line address passing validation resolves to the
relay-supplied `OriginalRecipient`. -/
theorem recipient_resolution_fallback :
    (∀ w, _is_forwarded_email w = false →
      extract_recipient_email w = w.OriginalRecipient) ∧
    (∀ w, _is_forwarded_email w = true →
      firstValidTextRecipient (w.TextBody.getD ("")) = none →
      (∀ h, w.HtmlBody = some h → _extract_recipient_from_html h = none) →
      extract_recipient_email w = w.OriginalRecipient) := by
  constructor
  · intro w hw
    simp [extract_recipient_email, hw]
  · intro w hw htext hhtml
    have hnone : _extract_original_recipient_from_content w = none := by
      unfold _extract_original_recipient_from_content
      rw [htext]
      cases hb : w.HtmlBody with
      | none => rfl
      | some html =>
        have hh := hhtml html hb
        by_cases he : html = ""
        · simp [he]
        · simp [he, hh]
    simp [extract_recipient_email, hw, hnone]

/-- Witness for the C5 theorem: a direct message and a forwarded message
with no To-line both resolve to the relay-supplied recipient. -/
theorem recipient_resolution_fallback_witness :
    extract_recipient_email directWebhook = directWebhook.OriginalRecipient ∧
    extract_recipient_email fwdNoToWebhook = fwdNoToWebhook.OriginalRecipient :=
  ⟨recipient_resolution_fallback.1 directWebhook (by decide),
   recipient_resolution_fallback.2 fwdNoToWebhook (by decide) (by decide)
     (fun h hc => Option.noConfusion hc)⟩

theorem create_pr_notification_existing (env : Env) (db : Db)
    (w : PostmarkInboundWebhook) (e : PRExtractionResult) (u : User)
    (n0 : PullRequestNotification)
    (h : db.notifications.find? (fun n => n.message_id == w.MessageID) = some n0) :
    create_pr_notification env db w e u = (db, n0) := by
  unfold create_pr_notification
  rw [h]

theorem create_pr_notification_fresh (env : Env) (db : Db)
    (w : PostmarkInboundWebhook) (e : PRExtractionResult) (u : User)
    (h : db.notifications.find? (fun n => n.message_id == w.MessageID) = none) :
    ∃ nn, (create_pr_notification env db w e u).1
            = { notifications := db.notifications ++ [nn], nextId := db.nextId + 1 } ∧
          (create_pr_notification env db w e u).2 = nn ∧
          nn.message_id = w.MessageID := by
  unfold create_pr_notification
  rw [h]
  cases hc : u.slack_connection with
  | none => exact ⟨_, rfl, rfl, rfl⟩
  | some c =>
    cases hs : env.slack_send_ok with
    | true => exact ⟨_, rfl, rfl, rfl⟩
    | false => exact ⟨_, rfl, rfl, rfl⟩

/-- C1: creation is idempotent on the provider message id — an existing
record is returned with the store unchanged and no insertion, and after
two submissions with the same MessageID exactly one stored record
carries it, the second call returning the first call's record and
leaving the first call's store untouched. -/
theorem create_pr_notification_idempotent :
    (∀ (env : Env) (db : Db) w e u n0,
      db.notifications.find? (fun n => n.message_id == w.MessageID) = some n0 →
      create_pr_notification env db w e u = (db, n0)) ∧
    (∀ (env env2 : Env) (db : Db) w w2 e e2 u u2,
      db.notifications.countP (fun n => n.message_id == w.MessageID) = 0 →
      w2.MessageID = w.MessageID →
      create_pr_notification env2 (create_pr_notification env db w e u).1 w2 e2 u2
          = ((create_pr_notification env db w e u).1,
             (create_pr_notification env db w e u).2) ∧
      (create_pr_notification env db w e u).1.notifications.countP
          (fun n => n.message_id == w.MessageID) = 1) := by
  constructor
  · exact fun env db w e u n0 h => create_pr_notification_existing env db w e u n0 h
  · intro env env2 db w w2 e e2 u u2 hcount hmsg
    obtain ⟨nn, h1, h2, h3⟩ :=
      create_pr_notification_fresh env db w e u (find?_eq_none_of_countP_zero hcount)
    have hfind : ((create_pr_notification env db w e u).1).notifications.find?
        (fun n => n.message_id == w2.MessageID) = some nn := by
      rw [h1]
      show (db.notifications ++ [nn]).find? (fun n => n.message_id == w2.MessageID)
            = some nn
      rw [hmsg, find?_append_of_none (find?_eq_none_of_countP_zero hcount)]
      simp [List.find?, h3]
    constructor
    · rw [create_pr_notification_existing env2 _ w2 e2 u2 nn hfind, h2]
    · rw [h1]
      show (db.notifications ++ [nn]).countP (fun n => n.message_id == w.MessageID) = 1
      rw [List.countP_append, hcount]
      simp [List.countP_cons, h3]

/-- Witness for the C1 theorem: a duplicate submission of a concrete
webhook against a store already holding its record, and the
one-record-after-two-submissions count from an empty store. -/
theorem create_pr_notification_idempotent_witness :
    create_pr_notification sampleEnvOk
        { notifications := [{ sampleRowA with message_id := "m-direct" }], nextId := 5 }
        directWebhook { pr_title := "T" } sampleUserConn
      = ({ notifications := [{ sampleRowA with message_id := "m-direct" }], nextId := 5 },
         { sampleRowA with message_id := "m-direct" }) ∧
    (create_pr_notification sampleEnvOk { notifications := [], nextId := 0 }
        directWebhook { pr_title := "T" } sampleUserConn).1.notifications.countP
        (fun n => n.message_id == directWebhook.MessageID) = 1 :=
  ⟨create_pr_notification_idempotent.1 sampleEnvOk
     { notifications := [{ sampleRowA with message_id := "m-direct" }], nextId := 5 }
     directWebhook { pr_title := "T" } sampleUserConn
     { sampleRowA with message_id := "m-direct" } (by decide),
   (create_pr_notification_idempotent.2 sampleEnvOk sampleEnvOk
     { notifications := [], nextId := 0 } directWebhook directWebhook
     { pr_title := "T" } { pr_title := "T" } sampleUserConn sampleUserConn
     (by decide) rfl).2⟩

/-- C3 counterexample: dispatching an already-relayed record through the
manual retry path invokes the messaging collaborator again (one call,
not zero), and when that repeated send fails the retry reports failure
rather than a no-op success. -/
theorem retry_already_relayed_counterexample :
    (retry_slack_notification sampleEnvOk dbSent [sampleUserConn] 7).2.2 = 1 ∧
    (retry_slack_notification sampleEnvFail dbSent [sampleUserConn] 7).2
        = (false, 1) :=
  ⟨by decide, by decide⟩

/-- C3 (amended): the automatic dispatch path is a no-op success on an
already-relayed record — when the record, its owner and a Slack
connection are found, it reports success, leaves the store unchanged and
makes no collaborator call; the manual retry path instead re-sends
unconditionally. -/
theorem trigger_already_relayed_noop (env : Env) (db : Db) (users : List User)
    (nid : Nat) (n : PullRequestNotification) (u : User)
    (hn : db.notifications.find? (fun m => m.id == nid) = some n)
    (hu : users.find? (fun x => x.id == n.user_id) = some u)
    (hc : u.slack_connection.isSome = true)
    (hsent : n.slack_sent = true) :
    trigger_slack_notification env db users nid = (db, true, 0) := by
  obtain ⟨c, hcc⟩ := Option.isSome_iff_exists.mp hc
  unfold trigger_slack_notification
  simp [hn, hu, hcc, hsent]

/-- Witness for the C3 amended theorem at the concrete relayed store. -/
theorem trigger_already_relayed_noop_witness :
    trigger_slack_notification sampleEnvOk dbSent [sampleUserConn] 7
      = (dbSent, true, 0) :=
  trigger_already_relayed_noop sampleEnvOk dbSent [sampleUserConn] 7
    sampleRowSent sampleUserConn (by decide) (by decide) (by decide) (by decide)

/-- C9: the retention sweep deletes exactly the records that are older
than the threshold and merged or closed — a record survives the sweep iff
it was stored and is not such a record, so any record with another
status survives regardless of age, as does any merged/closed record at
or newer than the threshold. -/
theorem cleanup_retention_frame (db : Db) (now days : Int)
    (n : PullRequestNotification) :
    n ∈ (cleanup_old_notifications_task db now days).1.notifications ↔
      n ∈ db.notifications ∧
        ¬(n.received_at < now - days * secondsPerDay ∧
          (n.pr_status = some ("merged") ∨ n.pr_status = some ("closed"))) := by
  unfold cleanup_old_notifications_task
  simp only [List.mem_filter, cleanupCond, Bool.not_eq_true', Bool.and_eq_false_iff,
    Bool.or_eq_false_iff, decide_eq_false_iff_not, beq_eq_false_iff_ne, ne_eq,
    not_and, not_or]
  tauto

/-- Witness for the C9 theorem: an old but still-open record survives a
concrete sweep. -/
theorem cleanup_retention_frame_witness :
    sampleRowA ∈ (cleanup_old_notifications_task
        { notifications := [sampleRowA], nextId := 3 } 1000 0).1.notifications :=
  (cleanup_retention_frame { notifications := [sampleRowA], nextId := 3 }
      1000 0 sampleRowA).mpr ⟨by decide, by decide⟩

/-- C10: single-record mutations are ownership-scoped — with no stored
record matching both the id and the owning user, delete and mark-relayed
report false and leave every record unchanged; with a match, exactly the
first matching record is removed or marked and every other record is
unchanged. -/
theorem ownership_scoped_mutations :
    (∀ (db : Db) (nid uid : Nat),
      (∀ n ∈ db.notifications, ¬(n.id = nid ∧ n.user_id = uid)) →
      delete_pr_notification db nid uid = (db, false) ∧
      mark_slack_sent db nid uid = (db, false)) ∧
    (∀ (db : Db) (nid uid : Nat) pre n post,
      db.notifications = pre ++ n :: post →
      (∀ m ∈ pre, ¬(m.id = nid ∧ m.user_id = uid)) →
      n.id = nid → n.user_id = uid →
      delete_pr_notification db nid uid
          = ({ db with notifications := pre ++ post }, true) ∧
      mark_slack_sent db nid uid
          = ({ db with notifications :=
                pre ++ ({ n with slack_sent := true }) :: post }, true)) := by
  constructor
  · intro db nid uid h
    have hf : db.notifications.find? (fun n => n.id == nid && n.user_id == uid)
        = none := by
      rw [List.find?_eq_none]
      intro x hx
      simpa using h x hx
    constructor
    · unfold delete_pr_notification
      rw [hf]
    · unfold mark_slack_sent
      rw [hf]
  · intro db nid uid pre n post hdb hpre hid huid
    have hpn : (n.id == nid && n.user_id == uid) = true := by simp [hid, huid]
    have hppre : ∀ m ∈ pre, (m.id == nid && m.user_id == uid) = false := by
      intro m hm
      have hnm := hpre m hm
      cases hb : (m.id == nid && m.user_id == uid) with
      | false => rfl
      | true =>
        exfalso
        apply hnm
        simpa using hb
    have hprenone : pre.find? (fun m => m.id == nid && m.user_id == uid) = none := by
      rw [List.find?_eq_none]
      intro x hx
      simp [hppre x hx]
    have hfind : db.notifications.find? (fun m => m.id == nid && m.user_id == uid)
        = some n := by
      rw [hdb, find?_append_of_none hprenone]
      simp [List.find?, hpn]
    constructor
    · unfold delete_pr_notification
      rw [hfind]
      rw [hdb, eraseP_append_first pre post n hppre hpn]
    · unfold mark_slack_sent
      rw [hfind]
      rw [hdb, setSentFirstP_append_first pre post n hppre hpn]

/-- Witness for the C10 theorem: a miss leaves the concrete store
unchanged, and a hit removes or marks exactly the matching row. -/
theorem ownership_scoped_mutations_witness :
    delete_pr_notification dbTwo 5 9 = (dbTwo, false) ∧
    delete_pr_notification dbTwo 2 10
        = ({ dbTwo with notifications := [sampleRowA] }, true) ∧
    mark_slack_sent dbTwo 2 10
        = ({ dbTwo with notifications :=
              [sampleRowA, { sampleRowB with slack_sent := true }] }, true) :=
  ⟨(ownership_scoped_mutations.1 dbTwo 5 9 (by decide)).1,
   (ownership_scoped_mutations.2 dbTwo 2 10 [sampleRowA] sampleRowB []
      (by decide) (by decide) (by decide) (by decide)).1,
   (ownership_scoped_mutations.2 dbTwo 2 10 [sampleRowA] sampleRowB []
      (by decide) (by decide) (by decide) (by decide)).2⟩

/-- C8 counterexample: with the sort field "bogus" — not an attribute of
the model class — and requested direction "asc", the rows come back
ascending by received-time, not in the descending order the claim states
for every direction; and the sort field "user", a non-column class
attribute, does not take the received-time fallback at all. -/
theorem apply_sorting_unknown_counterexample :
    _apply_sorting pyModelAttrs [sampleRowB, sampleRowA] ("bogus") ("asc")
        = Except.ok [sampleRowA, sampleRowB] ∧
    ¬ List.Pairwise (fun x y : PullRequestNotification =>
        y.received_at ≤ x.received_at) [sampleRowA, sampleRowB] ∧
    _apply_sorting pyModelAttrs [sampleRowB, sampleRowA] ("user") ("desc")
        = Except.error () :=
  ⟨rfl, by decide, rfl⟩

/-- C8 (amended): a sort field that is not an attribute of the model
class at all silently falls back to the received-time column, but the
requested direction still applies — for every attribute dictionary, the
sort succeeds with a permutation of the input, ascending by
received-time when "asc" is requested and descending by received-time
otherwise.  (A non-column attribute hit instead takes the unmodelled
error arm, per the counterexample.) -/
theorem apply_sorting_unknown_field (attrs : String → Option ClassAttr)
    (l : List PullRequestNotification)
    (sort_by sort_order : String) (h : attrs sort_by = none) :
    ∃ l', _apply_sorting attrs l sort_by sort_order = Except.ok l' ∧
      l'.Perm l ∧
      (sort_order = "asc" → l'.Pairwise
          (fun x y => x.received_at ≤ y.received_at)) ∧
      (sort_order ≠ "asc" → l'.Pairwise
          (fun x y => y.received_at ≤ x.received_at)) := by
  have htot : ∀ a b : PullRequestNotification,
      columnLe SortColumn.colReceivedAt a b = false →
      columnLe SortColumn.colReceivedAt b a = true := by
    intro a b hab
    simp only [columnLe, decide_eq_false_iff_not, decide_eq_true_eq, not_le] at hab ⊢
    omega
  have htrans : ∀ a b c : PullRequestNotification,
      columnLe SortColumn.colReceivedAt a b = true →
      columnLe SortColumn.colReceivedAt b c = true →
      columnLe SortColumn.colReceivedAt a c = true := by
    intro a b c h1 h2
    simp only [columnLe, decide_eq_true_eq] at h1 h2 ⊢
    omega
  unfold _apply_sorting
  rw [h]
  dsimp only
  by_cases ho : (sort_order == "asc") = true
  · rw [if_pos ho]
    have ho' : sort_order = "asc" := by simpa using ho
    refine ⟨_, rfl, sortByLe_perm _ l, fun _ => ?_, fun hne => absurd ho' hne⟩
    have hp := sortByLe_pairwise (columnLe SortColumn.colReceivedAt) htot htrans l
    refine hp.imp ?_
    intro a b hab
    simpa [columnLe] using hab
  · rw [if_neg ho]
    have ho' : sort_order ≠ "asc" := by simpa using ho
    refine ⟨_, rfl, sortByLe_perm _ l, fun heq => absurd heq ho', fun _ => ?_⟩
    have hp := sortByLe_pairwise (fun a b => columnLe SortColumn.colReceivedAt b a)
      (fun a b hab => htot b a hab)
      (fun a b c h1 h2 => htrans c b a h2 h1) l
    refine hp.imp ?_
    intro a b hab
    simpa [columnLe] using hab

/-- Witness for the C8 amended theorem: a concrete unknown-field request
with the default direction comes back descending by received-time. -/
theorem apply_sorting_unknown_field_witness :
    ∃ l', _apply_sorting pyModelAttrs [sampleRowA, sampleRowB] ("bogus") ("desc")
        = Except.ok l' ∧
      l'.Pairwise (fun x y => y.received_at ≤ x.received_at) := by
  obtain ⟨l', hok, _, _, hdesc⟩ := apply_sorting_unknown_field pyModelAttrs
    [sampleRowA, sampleRowB] ("bogus") ("desc") (by decide)
  exact ⟨l', hok, hdesc (by decide)⟩
